import Mathlib

/-!
Shallow embedding of the nimbus TUI application core: the `app/state` module
(tab state, view/input modes, filter engine, selection cursor, message state,
refresh orchestration) and the action-dispatch / cache-startup logic threaded
through the entry-point loop in `main.rs`.  Rust `String` is modelled by Lean
`String`; `Vec<T>` by `List T`; `Option<T>` by `Option T`; `Result<T>` by
`Except String T`; `DateTime<Utc>` instants by `Nat`; the `Arc<RwLock<...>>`
around the resource vector by the plain vector (single logical owner).
Provider trait objects are records of their observable behaviour.
-/

namespace Nimbus

/-- Cloud providers supported by nimbus (`core/resource.rs`). -/
inductive Provider where
  | AWS
  | GCP
  | Azure
  deriving DecidableEq, Repr

def Provider.as_str : Provider → String
  | .AWS => "AWS"
  | .GCP => "GCP"
  | .Azure => "Azure"

/-- Categories of cloud resources (`core/resource.rs`). -/
inductive ResourceType where
  | Compute
  | Database
  | Storage
  | LoadBalancer
  | DNS
  | Container
  | Serverless
  | Network
  | Cache
  | Queue
  deriving DecidableEq, Repr

def ResourceType.as_str : ResourceType → String
  | .Compute => "Compute"
  | .Database => "Database"
  | .Storage => "Storage"
  | .LoadBalancer => "Load Balancer"
  | .DNS => "DNS"
  | .Container => "Container"
  | .Serverless => "Serverless"
  | .Network => "Network"
  | .Cache => "Cache"
  | .Queue => "Queue"

/-- Operational state of a cloud resource (`core/resource.rs`). -/
inductive ResourceState where
  | Running
  | Stopped
  | Terminated
  | Pending
  | Stopping
  | Starting
  | Error
  | Unknown
  deriving DecidableEq, Repr

def ResourceState.as_str : ResourceState → String
  | .Running => "Running"
  | .Stopped => "Stopped"
  | .Terminated => "Terminated"
  | .Pending => "Pending"
  | .Stopping => "Stopping"
  | .Starting => "Starting"
  | .Error => "Error"
  | .Unknown => "Unknown"

/-- Lifecycle actions on cloud resources (`core/action.rs`). -/
inductive Action where
  | Start
  | Stop
  | Restart
  | Terminate
  | ViewDetails
  | ViewLogs
  | Modify
  deriving DecidableEq, Repr

def Action.as_str : Action → String
  | .Start => "Start"
  | .Stop => "Stop"
  | .Restart => "Restart"
  | .Terminate => "Terminate"
  | .ViewDetails => "View Details"
  | .ViewLogs => "View Logs"
  | .Modify => "Modify"

/-- An action is destructive exactly when it is `Terminate` (`core/action.rs`). -/
def Action.is_destructive : Action → Bool
  | .Terminate => true
  | _ => false

/-- Observable data of a `dyn CloudResource` trait object: the accessors the
application core consumes (`core/resource.rs`). -/
structure Resource where
  id : String
  name : String
  resource_type : ResourceType
  provider : Provider
  region : String
  state : ResourceState
  supported_actions : List Action
  deriving DecidableEq, Repr

/-- Observable behaviour of a registered `dyn CloudProvider` trait object:
its provider kind, the outcome of `list_all_resources`, and the outcome of
`execute_action` per resource id and action (`core/provider.rs`). -/
structure ProviderModel where
  provider_type : Provider
  list_all_resources : Except String (List Resource)
  execute_action : String → Action → Except String Unit

/-- Tab selector over provider groupings (`app/state.rs`). -/
inductive TabIndex where
  | AWS
  | GCP
  | Azure
  | AllClouds
  deriving DecidableEq, Repr

def TabIndex.all : List TabIndex :=
  [TabIndex.AWS, TabIndex.GCP, TabIndex.Azure, TabIndex.AllClouds]

def TabIndex.index : TabIndex → Nat
  | .AWS => 0
  | .GCP => 1
  | .Azure => 2
  | .AllClouds => 3

def TabIndex.from_index : Nat → Option TabIndex
  | 0 => some .AWS
  | 1 => some .GCP
  | 2 => some .Azure
  | 3 => some .AllClouds
  | _ => none

/-- Successor tab: index arithmetic modulo the length of `TabIndex.all`,
then indexing back into the list (`TabIndex::next`). -/
def TabIndex.next (t : TabIndex) : TabIndex :=
  let all := TabIndex.all
  let current_index := t.index
  let next_index := (current_index + 1) % all.length
  all.getD next_index TabIndex.AWS

/-- Predecessor tab with wraparound (`TabIndex::prev`). -/
def TabIndex.prev (t : TabIndex) : TabIndex :=
  let all := TabIndex.all
  let current_index := t.index
  let prev_index := if current_index = 0 then all.length - 1 else current_index - 1
  all.getD prev_index TabIndex.AWS

/-- View modes (`app/state.rs`). -/
inductive ViewMode where
  | Dashboard
  | ResourceList
  | ResourceDetail
  deriving DecidableEq, Repr

/-- Input modes (`app/state.rs`). -/
inductive InputMode where
  | Normal
  | Filter
  deriving DecidableEq, Repr

/-- The application state (`AppState` in `app/state.rs`).  Timestamps are
abstract `Nat` instants. -/
structure AppState where
  providers : List ProviderModel
  active_tab : TabIndex
  resources : List Resource
  filtered_resources : List Nat
  selected_index : Nat
  filter_text : String
  view_mode : ViewMode
  input_mode : InputMode
  loading : Bool
  last_refresh : Option Nat
  error_message : Option String
  success_message : Option String
  should_quit : Bool
  selected_action : Nat
  show_confirmation : Bool
  confirmation_message : String
  last_action : Option String
  last_action_time : Option Nat
  cache_enabled : Bool

/-- `AppState::new` (`app/state.rs`). -/
def AppState.new : AppState where
  providers := []
  active_tab := TabIndex.AWS
  resources := []
  filtered_resources := []
  selected_index := 0
  filter_text := ""
  view_mode := ViewMode.Dashboard
  input_mode := InputMode.Normal
  loading := false
  last_refresh := none
  error_message := none
  success_message := none
  should_quit := false
  selected_action := 0
  show_confirmation := false
  confirmation_message := ""
  last_action := none
  last_action_time := none
  cache_enabled := false

def AppState.with_providers (s : AppState) (ps : List ProviderModel) : AppState :=
  { s with providers := ps }

def AppState.with_cache_enabled (s : AppState) (enabled : Bool) : AppState :=
  { s with cache_enabled := enabled }

def AppState.next_tab (s : AppState) : AppState :=
  { s with active_tab := s.active_tab.next }

def AppState.prev_tab (s : AppState) : AppState :=
  { s with active_tab := s.active_tab.prev }

def AppState.set_tab (s : AppState) (t : TabIndex) : AppState :=
  { s with active_tab := t }

def AppState.toggle_view_mode (s : AppState) : AppState :=
  { s with view_mode :=
      match s.view_mode with
      | ViewMode.Dashboard => ViewMode.ResourceList
      | ViewMode.ResourceList => ViewMode.Dashboard
      | ViewMode.ResourceDetail => ViewMode.ResourceList }

/-- `AppState::enter_detail_view`: only acts when the filtered view is
non-empty (`app/state.rs` lines 188-193). -/
def AppState.enter_detail_view (s : AppState) : AppState :=
  if s.filtered_resources.isEmpty then s
  else { s with view_mode := ViewMode.ResourceDetail, selected_action := 0 }

/-- `AppState::exit_detail_view` (`app/state.rs` lines 195-199): returns to
the list view, resets the action cursor, and drops the confirmation flag;
the confirmation message string is not touched here. -/
def AppState.exit_detail_view (s : AppState) : AppState :=
  { s with view_mode := ViewMode.ResourceList
         , selected_action := 0
         , show_confirmation := false }

def AppState.next_action (s : AppState) (max_actions : Nat) : AppState :=
  if max_actions > 0 then
    { s with selected_action := (s.selected_action + 1) % max_actions }
  else s

def AppState.prev_action (s : AppState) (max_actions : Nat) : AppState :=
  if max_actions > 0 then
    if s.selected_action = 0 then { s with selected_action := max_actions - 1 }
    else { s with selected_action := s.selected_action - 1 }
  else s

def AppState.show_action_confirmation (s : AppState) (message : String) : AppState :=
  { s with confirmation_message := message, show_confirmation := true }

def AppState.cancel_confirmation (s : AppState) : AppState :=
  { s with show_confirmation := false, confirmation_message := "" }

def AppState.get_selected_resource_index (s : AppState) : Option Nat :=
  s.filtered_resources.get? s.selected_index

def AppState.quit (s : AppState) : AppState :=
  { s with should_quit := true }

def AppState.start_loading (s : AppState) : AppState :=
  { s with loading := true, error_message := none, success_message := none }

def AppState.stop_loading (s : AppState) : AppState :=
  { s with loading := false }

def AppState.set_error (s : AppState) (error : String) : AppState :=
  { s with error_message := some error, success_message := none, loading := false }

def AppState.clear_error (s : AppState) : AppState :=
  { s with error_message := none }

def AppState.set_success (s : AppState) (message : String) : AppState :=
  { s with success_message := some message, error_message := none, loading := false }

def AppState.clear_success (s : AppState) : AppState :=
  { s with success_message := none }

def AppState.clear_messages (s : AppState) : AppState :=
  { s with error_message := none, success_message := none }

def AppState.record_action (s : AppState) (now : Nat) (action_description : String) : AppState :=
  { s with last_action := some action_description, last_action_time := some now }

def AppState.enter_filter_mode (s : AppState) : AppState :=
  { s with input_mode := InputMode.Filter }

def AppState.exit_filter_mode (s : AppState) : AppState :=
  { s with input_mode := InputMode.Normal }

/-- Per-character lowercase, modelling Rust `str::to_lowercase` on this
code's ASCII field values. -/
def lowerStr (s : String) : String :=
  String.mk (s.data.map Char.toLower)

/-- Anchored match: does `pat` occur at the head of `l`? -/
def subAt : List Char → List Char → Bool
  | [], _ => true
  | _ :: _, [] => false
  | p :: ps, c :: cs => p == c && subAt ps cs

/-- Substring occurrence over character lists. -/
def subIn (pat : List Char) : List Char → Bool
  | [] => subAt pat []
  | c :: cs => subAt pat (c :: cs) || subIn pat cs

/-- Rust `str::contains(needle)` on `hay`. -/
def strContains (hay pat : String) : Bool :=
  subIn pat.data hay.data

/-- The per-resource predicate of `AppState::apply_filter`: case-insensitive
substring match of the lowercased filter text against name, id, resource-type
label, state label and region, OR'd across fields. -/
def matchesFilter (filter_lower : String) (r : Resource) : Bool :=
  strContains (lowerStr r.name) filter_lower
    || strContains (lowerStr r.id) filter_lower
    || strContains (lowerStr r.resource_type.as_str) filter_lower
    || strContains (lowerStr r.state.as_str) filter_lower
    || strContains (lowerStr r.region) filter_lower

/-- `AppState::apply_filter` (`app/state.rs` lines 337-369): recomputes
`filtered_resources` from the resource snapshot and the lowercased filter
text (all indices when the text is empty, else `enumerate/filter/map` of
the matching indices), then clamps `selected_index` to `len - 1` only when
it is out of range and the filtered view is non-empty. -/
def AppState.clamp_selected (s : AppState) : AppState :=
  if s.filtered_resources.length ≤ s.selected_index ∧ s.filtered_resources ≠ ([] : List Nat) then
    { s with selected_index := s.filtered_resources.length - 1 }
  else s

def AppState.apply_filter (s : AppState) : AppState :=
  let filter_lower := lowerStr s.filter_text
  let fr : List Nat :=
    if filter_lower.data.isEmpty then
      List.range s.resources.length
    else
      (s.resources.enum.filter (fun p => matchesFilter filter_lower p.2)).map Prod.fst
  AppState.clamp_selected { s with filtered_resources := fr }

def AppState.push_filter_char (s : AppState) (c : Char) : AppState :=
  AppState.apply_filter { s with filter_text := s.filter_text.push c }

def AppState.pop_filter_char (s : AppState) : AppState :=
  AppState.apply_filter { s with filter_text := String.mk s.filter_text.data.dropLast }

def AppState.clear_filter (s : AppState) : AppState :=
  AppState.apply_filter { s with filter_text := "" }

def AppState.next_resource (s : AppState) : AppState :=
  if s.filtered_resources.isEmpty then s
  else { s with selected_index := (s.selected_index + 1) % s.filtered_resources.length }

def AppState.prev_resource (s : AppState) : AppState :=
  if s.filtered_resources.isEmpty then s
  else if s.selected_index = 0 then
    { s with selected_index := s.filtered_resources.length - 1 }
  else { s with selected_index := s.selected_index - 1 }

/-- The provider loop of `AppState::refresh_resources`: query each registered
provider in order, concatenating results; stop at the first failure, which
is reported with the `Failed to load resources:` prefix and discards all
data fetched so far. -/
def collect_resources : List ProviderModel → Except String (List Resource)
  | [] => Except.ok []
  | p :: ps =>
    match p.list_all_resources with
    | Except.ok rs =>
      match collect_resources ps with
      | Except.ok rest => Except.ok (rs ++ rest)
      | Except.error e => Except.error e
    | Except.error e => Except.error ("Failed to load resources: " ++ e)

/-- `AppState::refresh_resources` (`app/state.rs` lines 302-335): set the
loading flag (clearing messages), query all providers; on failure set the
error message and return the error without touching the resource vector;
on success replace the resource vector, re-apply the filter, stamp
`last_refresh` and clear the loading flag. -/
def AppState.refresh_resources (s : AppState) (now : Nat) :
    AppState × Except String Unit :=
  let s1 := s.start_loading
  match collect_resources s1.providers with
  | Except.error msg => (s1.set_error msg, Except.error msg)
  | Except.ok all_resources =>
    let s2 := { s1 with resources := all_resources }
    let s3 := s2.apply_filter
    let s4 := { s3 with last_refresh := some now }
    (s4.stop_loading, Except.ok ())

/-- A row of the persistent cache as returned by
`CacheStore::get_all_cached_resources` (`cache/store.rs`). -/
structure CachedResource where
  id : String
  provider : Provider
  resource_type : ResourceType
  data : String
  cached_at : Nat
  deriving DecidableEq, Repr

/-- `load_resources_from_cache` (`main.rs` lines 202-219): given the rows the
cache returned, report 0 for an empty cache; otherwise record the first
row's `cached_at` as `last_refresh` and report the row count.  (The rows
themselves are not written anywhere.) -/
def load_resources_from_cache (s : AppState) (cached_resources : List CachedResource) :
    AppState × Nat :=
  if cached_resources.isEmpty then (s, 0)
  else
    let count := cached_resources.length
    let s1 :=
      match cached_resources.head? with
      | some first => { s with last_refresh := some first.cached_at }
      | none => s
    (s1, count)

/-- `refresh_and_cache_resources` (`main.rs` lines 221-242): refresh, then
best-effort write-through to the persistent cache (the cache write has no
effect on the state and its failure is only logged, so it is not modelled). -/
def refresh_and_cache_resources (s : AppState) (now : Nat) :
    AppState × Except String Unit :=
  s.refresh_resources now

/-- The startup load of `run_tui` (`main.rs` lines 156-181): if a cache is
configured, try hydrating from it; when it reports a positive count, set the
success banner and skip the provider fetch, otherwise fall through to a live
refresh (whose failure is only logged). -/
def run_tui_load (s : AppState) (now : Nat) (cache_store : Option (List CachedResource)) :
    AppState :=
  match cache_store with
  | some cached =>
    let (s1, count) := load_resources_from_cache s cached
    if count > 0 then
      s1.set_success ("Loaded " ++ toString count
        ++ " resources from cache (press \x27r\x27 to refresh)")
    else (refresh_and_cache_resources s1 now).1
  | none => (refresh_and_cache_resources s now).1

/-- The provider-dispatch loop shared by both action-execution branches of
`run_app` (`main.rs` lines 304-311 and 525-532): scan registered providers
in order; the first one whose `provider_type` equals the resource's provider
is invoked and the scan stops.  Returns the optional call outcome together
with the list of providers actually invoked. -/
def dispatch_action (ps : List ProviderModel) (resource_provider : Provider)
    (resource_id : String) (action : Action) :
    Option (Except String Unit) × List ProviderModel :=
  match ps with
  | [] => (none, [])
  | p :: rest =>
    if p.provider_type == resource_provider then
      (some (p.execute_action resource_id action), [p])
    else dispatch_action rest resource_provider resource_id action

/-- Success-message verb of the Detail-view Enter branch (`main.rs` lines
537-545; this branch's `match` has no `Terminate` arm). -/
def success_verb_detail : Action → String
  | .Start => "started"
  | .Stop => "stopped"
  | .Restart => "restarted"
  | _ => "completed action on"

/-- Success-message verb of the confirmation Enter branch (`main.rs` lines
316-325). -/
def success_verb_confirm : Action → String
  | .Start => "started"
  | .Stop => "stopped"
  | .Restart => "restarted"
  | .Terminate => "terminated"
  | _ => "completed action on"

/-- The `match action_result` tail shared by both action branches of
`run_app`: on provider success record and show the success message, then
trigger a refresh (whose failure is only logged); on provider failure set
that failure as the error message; when no provider was found set the
distinct consistency error. -/
def handle_action_result (s : AppState) (now : Nat) (verb : Action → String)
    (resource_name : String) (action : Action)
    (action_result : Option (Except String Unit)) : AppState :=
  match action_result with
  | some (Except.ok _) =>
    let success_msg :=
      "Successfully " ++ verb action ++ " \x27" ++ resource_name ++ "\x27"
    let s1 := s.record_action now success_msg
    let s2 := s1.set_success success_msg
    (refresh_and_cache_resources s2 now).1
  | some (Except.error e) => s.set_error e
  | none => s.set_error "No provider found for this resource"

/-- The confirmation message built in the Detail-view Enter branch
(`main.rs` lines 515-519). -/
def confirm_message (action : Action) (resource_name : String) : String :=
  "Are you sure you want to " ++ lowerStr action.as_str ++ " \x27" ++ resource_name
    ++ "\x27?\n\nThis action cannot be undone.\n\nPress Enter to confirm or ESC to cancel."

/-- The Detail-view Enter branch of `run_app` (`main.rs` lines 513-564),
after `action_info` extraction: a destructive action only raises the
confirmation dialog; a non-destructive one starts loading, dispatches to
the owning provider and handles the outcome.  Also returns the list of
providers invoked. -/
def detail_enter (s : AppState) (now : Nat) (resource_id resource_name : String)
    (resource_provider : Provider) (action : Action) :
    AppState × List ProviderModel :=
  if action.is_destructive then
    (s.show_action_confirmation (confirm_message action resource_name), [])
  else
    let s1 := s.start_loading
    let (action_result, invoked) :=
      dispatch_action s1.providers resource_provider resource_id action
    (handle_action_result s1 now success_verb_detail resource_name action action_result,
      invoked)

/-- The confirmation-view Enter branch of `run_app` (`main.rs` lines
276-345), after `action_info` extraction: dismiss the dialog, start
loading, dispatch to the owning provider and handle the outcome.  Also
returns the list of providers invoked. -/
def confirm_enter (s : AppState) (now : Nat) (resource_id resource_name : String)
    (resource_provider : Provider) (action : Action) :
    AppState × List ProviderModel :=
  let s0 := s.cancel_confirmation
  let s1 := s0.start_loading
  let (action_result, invoked) :=
    dispatch_action s1.providers resource_provider resource_id action
  (handle_action_result s1 now success_verb_confirm resource_name action action_result,
    invoked)

/-- Indices, counted from `n`, of the elements of a list satisfying a
predicate, in list order. -/
def idxFilter {α : Type} (f : α → Bool) : List α → Nat → List Nat
  | [], _ => []
  | a :: t, n => if f a then n :: idxFilter f t (n + 1) else idxFilter f t (n + 1)

/-- Modelled from the spec: the Filtered View as §3 of the spec words it —
with empty filter text, every index `0..N` in store order; with non-empty
text, exactly the indices (in store order) of resources whose lowercased
name, id, category label, state label or region contains the lowercased
filter text as a substring.  Written for comparison with
`AppState.apply_filter`. -/
def filteredViewSpec (resources : List Resource) (filter_text : String) : List Nat :=
  if filter_text.data.isEmpty then
    List.range resources.length
  else
    idxFilter (matchesFilter (lowerStr filter_text)) resources 0

/-- The mutating operations of the `AppState` API, as an operation alphabet
for stating state invariants over arbitrary operation sequences. -/
inductive Op where
  | next_tab
  | prev_tab
  | set_tab (t : TabIndex)
  | toggle_view_mode
  | enter_detail_view
  | exit_detail_view
  | next_action (n : Nat)
  | prev_action (n : Nat)
  | show_action_confirmation (m : String)
  | cancel_confirmation
  | quit
  | start_loading
  | stop_loading
  | set_error (e : String)
  | clear_error
  | set_success (m : String)
  | clear_success
  | clear_messages
  | record_action (now : Nat) (d : String)
  | enter_filter_mode
  | exit_filter_mode
  | push_filter_char (c : Char)
  | pop_filter_char
  | clear_filter
  | next_resource
  | prev_resource
  | apply_filter
  | refresh (now : Nat)

/-- Interpretation of one `AppState` operation. -/
def applyOp (op : Op) (s : AppState) : AppState :=
  match op with
  | .next_tab => s.next_tab
  | .prev_tab => s.prev_tab
  | .set_tab t => s.set_tab t
  | .toggle_view_mode => s.toggle_view_mode
  | .enter_detail_view => s.enter_detail_view
  | .exit_detail_view => s.exit_detail_view
  | .next_action n => s.next_action n
  | .prev_action n => s.prev_action n
  | .show_action_confirmation m => s.show_action_confirmation m
  | .cancel_confirmation => s.cancel_confirmation
  | .quit => s.quit
  | .start_loading => s.start_loading
  | .stop_loading => s.stop_loading
  | .set_error e => s.set_error e
  | .clear_error => s.clear_error
  | .set_success m => s.set_success m
  | .clear_success => s.clear_success
  | .clear_messages => s.clear_messages
  | .record_action now d => s.record_action now d
  | .enter_filter_mode => s.enter_filter_mode
  | .exit_filter_mode => s.exit_filter_mode
  | .push_filter_char c => s.push_filter_char c
  | .pop_filter_char => s.pop_filter_char
  | .clear_filter => s.clear_filter
  | .next_resource => s.next_resource
  | .prev_resource => s.prev_resource
  | .apply_filter => s.apply_filter
  | .refresh now => (s.refresh_resources now).1

/-- Runs a sequence of `AppState` operations from a starting state. -/
def runOps (ops : List Op) (s : AppState) : AppState :=
  ops.foldl (fun s op => applyOp op s) s

/-- At most one of the two transient messages is set. -/
def msg_exclusive (s : AppState) : Prop :=
  s.error_message = none ∨ s.success_message = none

/-- Sample resource used in concrete witness states. -/
def r1 : Resource where
  id := "i-0abc"
  name := "web-server"
  resource_type := ResourceType.Compute
  provider := Provider.AWS
  region := "us-east-1"
  state := ResourceState.Running
  supported_actions := [Action.Stop, Action.Restart, Action.Terminate, Action.ViewDetails]

/-- Second sample resource used in concrete witness states. -/
def r2 : Resource where
  id := "db-7"
  name := "orders-db"
  resource_type := ResourceType.Database
  provider := Provider.AWS
  region := "eu-west-1"
  state := ResourceState.Stopped
  supported_actions := [Action.Start, Action.ViewDetails]

/-- Sample provider whose listing succeeds with two resources. -/
def pOk : ProviderModel where
  provider_type := Provider.AWS
  list_all_resources := Except.ok [r1, r2]
  execute_action := fun _ _ => Except.ok ()

/-- Sample provider whose listing fails. -/
def pBad : ProviderModel where
  provider_type := Provider.GCP
  list_all_resources := Except.error "connection refused"
  execute_action := fun _ _ => Except.ok ()

/-- Sample state with one succeeding and one failing registered provider. -/
def sRefresh : AppState :=
  AppState.new.with_providers [pOk, pBad]

/-- Sample unexpired cache row. -/
def c1 : CachedResource where
  id := "i-0abc"
  provider := Provider.AWS
  resource_type := ResourceType.Compute
  data := "serialized"
  cached_at := 5

/-- Sample startup state with the cache configured. -/
def sCache : AppState :=
  AppState.new.with_cache_enabled true

/-- Sample state whose selection cursor is 1 while the store is empty. -/
def sCursor : AppState :=
  { AppState.new with selected_index := 1 }

/-- Sample state carrying a pending confirmation with a non-empty message. -/
def sConfirm : AppState :=
  AppState.new.show_action_confirmation "delete it?"

/-! Helper lemmas (shared; none of them is a claim's theorem). -/

theorem clamp_selected_resources (s : AppState) :
    (s.clamp_selected).resources = s.resources := by
  unfold AppState.clamp_selected
  split <;> rfl

theorem clamp_selected_filtered (s : AppState) :
    (s.clamp_selected).filtered_resources = s.filtered_resources := by
  unfold AppState.clamp_selected
  split <;> rfl

theorem clamp_selected_filter_text (s : AppState) :
    (s.clamp_selected).filter_text = s.filter_text := by
  unfold AppState.clamp_selected
  split <;> rfl

theorem clamp_selected_error_message (s : AppState) :
    (s.clamp_selected).error_message = s.error_message := by
  unfold AppState.clamp_selected
  split <;> rfl

theorem clamp_selected_success_message (s : AppState) :
    (s.clamp_selected).success_message = s.success_message := by
  unfold AppState.clamp_selected
  split <;> rfl

theorem clamp_selected_cursor (s : AppState) :
    ((s.clamp_selected).filtered_resources.length = 0 ∧
        (s.clamp_selected).selected_index = s.selected_index) ∨
      (s.clamp_selected).selected_index < (s.clamp_selected).filtered_resources.length := by
  unfold AppState.clamp_selected
  split
  case isTrue h =>
    right
    simpa using Nat.sub_lt (List.length_pos.mpr h.2) Nat.one_pos
  case isFalse h =>
    rcases not_and_or.mp h with h1 | h2
    · right
      simpa using Nat.lt_of_not_le h1
    · left
      have h3 := not_not.mp h2
      simp [h3]

theorem apply_filter_resources (s : AppState) :
    (s.apply_filter).resources = s.resources :=
  clamp_selected_resources _

theorem apply_filter_filter_text (s : AppState) :
    (s.apply_filter).filter_text = s.filter_text :=
  clamp_selected_filter_text _

theorem apply_filter_error_message (s : AppState) :
    (s.apply_filter).error_message = s.error_message :=
  clamp_selected_error_message _

theorem apply_filter_success_message (s : AppState) :
    (s.apply_filter).success_message = s.success_message :=
  clamp_selected_success_message _

theorem tab_next_four_cycle (t : TabIndex) : t.next.next.next.next = t := by
  cases t <;> rfl

/-- C9: for every tab value of the cyclic enumeration, applying `next_tab`
four times returns the tab state to where it started. -/
theorem next_tab_four_cycle (s : AppState) :
    s.next_tab.next_tab.next_tab.next_tab.active_tab = s.active_tab := by
  simp only [AppState.next_tab]
  exact tab_next_four_cycle s.active_tab

/-- C10: when the filtered view is empty, `enter_detail_view` leaves the
whole application state unchanged, byte for byte. -/
theorem enter_detail_view_noop_when_empty (s : AppState)
    (h : s.filtered_resources = []) : s.enter_detail_view = s := by
  simp [AppState.enter_detail_view, h]

theorem enter_detail_view_noop_when_empty_witness :
    AppState.new.filtered_resources = [] ∧
      AppState.new.enter_detail_view = AppState.new :=
  ⟨rfl, enter_detail_view_noop_when_empty AppState.new rfl⟩

/-- C4 counterexample: starting from a state whose confirmation message is
`delete it?`, `exit_detail_view` drops the confirmation flag but leaves the
message intact and non-empty, refuting that the message is cleared. -/
theorem exit_detail_view_message_not_cleared :
    (sConfirm.exit_detail_view).show_confirmation = false ∧
      (sConfirm.exit_detail_view).confirmation_message = "delete it?" ∧
      ¬ ((sConfirm.exit_detail_view).confirmation_message = "") :=
  ⟨rfl, rfl, by decide⟩

/-- C4 amended: `exit_detail_view` is always permitted, returns to the list
view, resets the action cursor and drops the confirmation flag, but leaves
the confirmation message string unchanged (it is cleared separately by
`cancel_confirmation`, not by this transition). -/
theorem exit_detail_view_amended (s : AppState) :
    (s.exit_detail_view).view_mode = ViewMode.ResourceList ∧
      (s.exit_detail_view).show_confirmation = false ∧
      (s.exit_detail_view).selected_action = 0 ∧
      (s.exit_detail_view).confirmation_message = s.confirmation_message :=
  ⟨rfl, rfl, rfl, rfl⟩

/-- C3 counterexample: with an empty store, empty filter text and prior
cursor 1, `apply_filter` leaves the cursor at 1 although the filtered view
is empty, refuting that the cursor equals 0 in the empty case. -/
theorem apply_filter_empty_cursor_not_reset :
    (sCursor.apply_filter).filtered_resources = [] ∧
      (sCursor.apply_filter).selected_index = 1 :=
  ⟨rfl, rfl⟩

/-- C3 amended: after every `apply_filter` recompute, either the filtered
view is empty and the cursor keeps its prior value, or the cursor lies in
`[0, len(filtered_resources))`. -/
theorem apply_filter_cursor_in_range (s : AppState) :
    ((s.apply_filter).filtered_resources.length = 0 ∧
        (s.apply_filter).selected_index = s.selected_index) ∨
      (s.apply_filter).selected_index < (s.apply_filter).filtered_resources.length :=
  clamp_selected_cursor _

theorem collect_resources_error_of_mem (ps : List ProviderModel)
    (p : ProviderModel) (hp : p ∈ ps) (e : String)
    (he : p.list_all_resources = Except.error e) :
    ∃ msg, collect_resources ps = Except.error msg := by
  induction ps with
  | nil => cases hp
  | cons q rest ih =>
    rcases List.mem_cons.mp hp with hq | hmem
    · subst hq
      exact ⟨"Failed to load resources: " ++ e, by simp [collect_resources, he]⟩
    · cases hql : q.list_all_resources with
      | error e' =>
        exact ⟨"Failed to load resources: " ++ e', by simp [collect_resources, hql]⟩
      | ok rs =>
        obtain ⟨msg, hmsg⟩ := ih hmem
        exact ⟨msg, by simp [collect_resources, hql, hmsg]⟩

/-- C1: whenever some registered provider's `list_all_resources` fails,
`refresh_resources` returns an error, records that failure as the error
message, and leaves the resources vector exactly as it was before the call
(no partial merge of the earlier providers' data). -/
theorem refresh_resources_all_or_nothing (s : AppState) (now : Nat)
    (p : ProviderModel) (hp : p ∈ s.providers) (e : String)
    (he : p.list_all_resources = Except.error e) :
    (s.refresh_resources now).1.resources = s.resources ∧
      ∃ msg, (s.refresh_resources now).2 = Except.error msg ∧
        (s.refresh_resources now).1.error_message = some msg := by
  obtain ⟨msg, hmsg⟩ :=
    collect_resources_error_of_mem s.providers p hp e he
  have hprov : (s.start_loading).providers = s.providers := rfl
  refine ⟨?_, msg, ?_, ?_⟩ <;>
    simp [AppState.refresh_resources, hprov, hmsg, AppState.set_error,
      AppState.start_loading]

theorem refresh_resources_all_or_nothing_witness :
    pBad ∈ sRefresh.providers ∧
      pBad.list_all_resources = Except.error "connection refused" ∧
      ((sRefresh.refresh_resources 7).1.resources = sRefresh.resources ∧
        ∃ msg, (sRefresh.refresh_resources 7).2 = Except.error msg ∧
          (sRefresh.refresh_resources 7).1.error_message = some msg) := by
  have hmem : pBad ∈ sRefresh.providers :=
    List.mem_cons_of_mem pOk (List.mem_cons_self pBad [])
  exact ⟨hmem, rfl,
    refresh_resources_all_or_nothing sRefresh 7 pBad hmem "connection refused" rfl⟩

/-- C2 (code bug): starting from a fresh state with the cache configured and
a non-empty unexpired cache, the startup path records `last_refresh` from
the cache row and shows a `Loaded 1 resources from cache` banner, yet the
resources vector stays empty: the cached resources are never written into
the Resource Store. -/
theorem startup_cache_does_not_hydrate :
    (run_tui_load sCache 0 (some [c1])).resources = [] ∧
      (run_tui_load sCache 0 (some [c1])).last_refresh = some 5 ∧
      (run_tui_load sCache 0 (some [c1])).success_message =
        some "Loaded 1 resources from cache (press \x27r\x27 to refresh)" :=
  ⟨rfl, rfl, rfl⟩

theorem lowerStr_isEmpty (t : String) :
    (lowerStr t).data.isEmpty = t.data.isEmpty := by
  cases t with
  | mk d => cases d <;> rfl

theorem enumFrom_filter_map_fst {α : Type} (f : α → Bool) (l : List α) :
    ∀ n : Nat, ((List.enumFrom n l).filter (fun p => f p.2)).map Prod.fst
      = idxFilter f l n := by
  induction l with
  | nil => intro n; rfl
  | cons a t ih =>
    intro n
    cases hfa : f a <;>
      simp [List.enumFrom, List.filter_cons, hfa, idxFilter, ih]

theorem apply_filter_filtered_eq_spec (s : AppState) :
    (s.apply_filter).filtered_resources = filteredViewSpec s.resources s.filter_text := by
  simp only [AppState.apply_filter, clamp_selected_filtered]
  unfold filteredViewSpec
  rw [lowerStr_isEmpty]
  cases hemp : s.filter_text.data.isEmpty with
  | true => simp [hemp]
  | false =>
    simp only [hemp, Bool.false_eq_true, if_false]
    exact enumFrom_filter_map_fst (matchesFilter (lowerStr s.filter_text)) s.resources 0

/-- C5: `apply_filter` computes the filtered view exactly as specified —
with empty filter text it is the indices `0..N` in store order, with
non-empty text exactly the indices (in store order) of resources whose
lowercased name, id, category label, state label or region contains the
lowercased filter text — and recomputing on the same snapshot and text is
idempotent. -/
theorem apply_filter_deterministic_spec (s : AppState) :
    (s.apply_filter).filtered_resources = filteredViewSpec s.resources s.filter_text ∧
      (s.apply_filter.apply_filter).filtered_resources
        = (s.apply_filter).filtered_resources := by
  refine ⟨apply_filter_filtered_eq_spec s, ?_⟩
  rw [apply_filter_filtered_eq_spec s.apply_filter, apply_filter_resources,
    apply_filter_filter_text, apply_filter_filtered_eq_spec s]

theorem applyOp_msg_exclusive (op : Op) (s : AppState) (h : msg_exclusive s) :
    msg_exclusive (applyOp op s) := by
  cases op with
  | next_tab => exact h
  | prev_tab => exact h
  | set_tab t => exact h
  | toggle_view_mode => exact h
  | enter_detail_view =>
    simp only [applyOp, AppState.enter_detail_view]
    split <;> exact h
  | exit_detail_view => exact h
  | next_action n =>
    simp only [applyOp, AppState.next_action]
    split <;> exact h
  | prev_action n =>
    simp only [applyOp, AppState.prev_action]
    split
    · split <;> exact h
    · exact h
  | show_action_confirmation m => exact h
  | cancel_confirmation => exact h
  | quit => exact h
  | start_loading => exact Or.inl rfl
  | stop_loading => exact h
  | set_error e => exact Or.inr rfl
  | clear_error => exact Or.inl rfl
  | set_success m => exact Or.inl rfl
  | clear_success => exact Or.inr rfl
  | clear_messages => exact Or.inl rfl
  | record_action now d => exact h
  | enter_filter_mode => exact h
  | exit_filter_mode => exact h
  | push_filter_char c =>
    rcases h with h | h
    · exact Or.inl ((apply_filter_error_message _).trans h)
    · exact Or.inr ((apply_filter_success_message _).trans h)
  | pop_filter_char =>
    rcases h with h | h
    · exact Or.inl ((apply_filter_error_message _).trans h)
    · exact Or.inr ((apply_filter_success_message _).trans h)
  | clear_filter =>
    rcases h with h | h
    · exact Or.inl ((apply_filter_error_message _).trans h)
    · exact Or.inr ((apply_filter_success_message _).trans h)
  | next_resource =>
    simp only [applyOp, AppState.next_resource]
    split <;> exact h
  | prev_resource =>
    simp only [applyOp, AppState.prev_resource]
    split
    · exact h
    · split <;> exact h
  | apply_filter =>
    rcases h with h | h
    · exact Or.inl ((apply_filter_error_message _).trans h)
    · exact Or.inr ((apply_filter_success_message _).trans h)
  | refresh now =>
    simp only [applyOp, AppState.refresh_resources]
    cases hc : collect_resources (s.start_loading).providers with
    | error msg => exact Or.inr rfl
    | ok all =>
      exact Or.inl (apply_filter_error_message { s.start_loading with resources := all })

theorem runOps_msg_exclusive (ops : List Op) :
    ∀ s : AppState, msg_exclusive s → msg_exclusive (runOps ops s) := by
  induction ops with
  | nil => intro s h; exact h
  | cons op rest ih => intro s h; exact ih _ (applyOp_msg_exclusive op s h)

/-- C6: `set_error` sets the error, clears success and loading;
`set_success` sets success, clears the error and loading; and along every
sequence of `AppState` operations started from `AppState::new`, the error
and success messages are never both set. -/
theorem message_state_exclusive :
    (∀ (s : AppState) (x : String),
        (s.set_error x).error_message = some x ∧
          (s.set_error x).success_message = none ∧ (s.set_error x).loading = false) ∧
      (∀ (s : AppState) (y : String),
        (s.set_success y).success_message = some y ∧
          (s.set_success y).error_message = none ∧ (s.set_success y).loading = false) ∧
      (∀ ops : List Op, msg_exclusive (runOps ops AppState.new)) :=
  ⟨fun _ _ => ⟨rfl, rfl, rfl⟩, fun _ _ => ⟨rfl, rfl, rfl⟩,
    fun ops => runOps_msg_exclusive ops AppState.new (Or.inl rfl)⟩

theorem clamp_selected_show_confirmation (s : AppState) :
    (s.clamp_selected).show_confirmation = s.show_confirmation := by
  unfold AppState.clamp_selected
  split <;> rfl

theorem apply_filter_show_confirmation (s : AppState) :
    (s.apply_filter).show_confirmation = s.show_confirmation :=
  clamp_selected_show_confirmation _

theorem refresh_show_confirmation (s : AppState) (now : Nat) :
    ((s.refresh_resources now).1).show_confirmation = s.show_confirmation := by
  simp only [AppState.refresh_resources]
  cases hc : collect_resources (s.start_loading).providers with
  | error msg => rfl
  | ok all =>
    exact apply_filter_show_confirmation { s.start_loading with resources := all }

theorem dispatch_action_eq_find (ps : List ProviderModel) (rp : Provider)
    (rid : String) (a : Action) :
    dispatch_action ps rp rid a
      = ((ps.find? (fun p => p.provider_type == rp)).map
            (fun p => p.execute_action rid a),
          (ps.find? (fun p => p.provider_type == rp)).toList) := by
  induction ps with
  | nil => rfl
  | cons p rest ih =>
    cases h : (p.provider_type == rp) <;>
      simp [dispatch_action, List.find?, h, ih]

/-- C7: executing an action dispatches to the first registered provider
whose `provider_type` equals the resource's provider, and to no other; when
no registered provider matches, no provider is invoked and the distinct
consistency error `No provider found for this resource` is set as the error
message. -/
theorem action_execution_routing (s : AppState) (now : Nat)
    (rid rname : String) (rp : Provider) (a : Action) :
    (confirm_enter s now rid rname rp a).2
        = (s.providers.find? (fun p => p.provider_type == rp)).toList ∧
      (∀ p ∈ (confirm_enter s now rid rname rp a).2, p.provider_type = rp) ∧
      (s.providers.find? (fun p => p.provider_type == rp) = none →
        (confirm_enter s now rid rname rp a).2 = [] ∧
          (confirm_enter s now rid rname rp a).1.error_message
            = some "No provider found for this resource") := by
  refine ⟨?_, ?_, ?_⟩
  · simp only [confirm_enter, AppState.cancel_confirmation, AppState.start_loading,
      dispatch_action_eq_find]
  · intro p hp
    simp only [confirm_enter, AppState.cancel_confirmation, AppState.start_loading,
      dispatch_action_eq_find] at hp
    cases hfind : s.providers.find? (fun p => p.provider_type == rp) with
    | none => rw [hfind] at hp; cases hp
    | some q =>
      rw [hfind] at hp
      have hpq : p = q := by simpa using hp
      subst hpq
      have hb := List.find?_some hfind
      exact eq_of_beq hb
  · intro hnone
    simp only [confirm_enter, AppState.cancel_confirmation, AppState.start_loading,
      dispatch_action_eq_find, hnone, Option.map_none', Option.toList_none,
      handle_action_result, AppState.set_error]
    exact ⟨trivial, trivial⟩

theorem action_execution_routing_witness :
    (confirm_enter sRefresh 3 "id-1" "web" Provider.Azure Action.Stop).2 = [] ∧
      (confirm_enter sRefresh 3 "id-1" "web" Provider.Azure Action.Stop).1.error_message
        = some "No provider found for this resource" :=
  (action_execution_routing sRefresh 3 "id-1" "web" Provider.Azure Action.Stop).2.2 rfl

/-- C8: selecting the action under the cursor in Detail view raises the
confirmation dialog with a non-empty message and invokes no provider when
the action is destructive, and otherwise executes immediately, dispatching
to the owning provider without entering the confirmation state. -/
theorem detail_enter_destructive_gating (s : AppState) (now : Nat)
    (rid rname : String) (rp : Provider) (a : Action) :
    (a.is_destructive = true →
        (detail_enter s now rid rname rp a).1.show_confirmation = true ∧
          (detail_enter s now rid rname rp a).1.confirmation_message
            = confirm_message a rname ∧
          ¬ ((detail_enter s now rid rname rp a).1.confirmation_message = "") ∧
          (detail_enter s now rid rname rp a).2 = []) ∧
      (a.is_destructive = false →
        (detail_enter s now rid rname rp a).1.show_confirmation
            = s.show_confirmation ∧
          (detail_enter s now rid rname rp a).2
            = (s.providers.find? (fun p => p.provider_type == rp)).toList) := by
  constructor
  · intro hdes
    have hne : ¬ (confirm_message a rname = "") := by
      intro h
      have hlen := congrArg String.length h
      simp [confirm_message, String.length_append] at hlen
      have h25 : ("Are you sure you want to " : String).length = 25 := rfl
      omega
    simp only [detail_enter, hdes, if_true]
    exact ⟨by trivial, by trivial, hne, by trivial⟩
  · intro hdes
    simp only [detail_enter, hdes, Bool.false_eq_true, if_false,
      AppState.start_loading, dispatch_action_eq_find]
    constructor
    · cases hfind : s.providers.find? (fun p => p.provider_type == rp) with
      | none =>
        simp only [hfind, Option.map_none', handle_action_result, AppState.set_error]
      | some q =>
        cases hq : q.execute_action rid a with
        | ok u =>
          simp only [hfind, Option.map_some', hq, handle_action_result]
          exact (refresh_show_confirmation _ _).trans rfl
        | error e =>
          simp only [hfind, Option.map_some', hq, handle_action_result,
            AppState.set_error]
    · trivial

theorem detail_enter_destructive_gating_witness :
    ((detail_enter sRefresh 3 "id-9" "db" Provider.AWS Action.Terminate).1.show_confirmation
          = true ∧
        (detail_enter sRefresh 3 "id-9" "db" Provider.AWS Action.Terminate).1.confirmation_message
          = confirm_message Action.Terminate "db" ∧
        ¬ ((detail_enter sRefresh 3 "id-9" "db" Provider.AWS
              Action.Terminate).1.confirmation_message = "") ∧
        (detail_enter sRefresh 3 "id-9" "db" Provider.AWS Action.Terminate).2 = []) ∧
      ((detail_enter sRefresh 4 "id-9" "db" Provider.AWS Action.Start).1.show_confirmation
          = sRefresh.show_confirmation ∧
        (detail_enter sRefresh 4 "id-9" "db" Provider.AWS Action.Start).2
          = (sRefresh.providers.find? (fun p => p.provider_type == Provider.AWS)).toList) :=
  ⟨(detail_enter_destructive_gating sRefresh 3 "id-9" "db" Provider.AWS Action.Terminate).1
      rfl,
    (detail_enter_destructive_gating sRefresh 4 "id-9" "db" Provider.AWS Action.Start).2
      rfl⟩

end Nimbus
